/-
Verification of the PCAT "Aba Efeito" extractor (src/Efeito.py).

The script reads a fixed rectangular region from the sheet "EFEITO" of a
hardcoded list of spreadsheet files, tags each extracted block with its
source description and path, buckets blocks by the first configured year
whose decimal string occurs in the file path, and writes one consolidated
workbook with one sheet per non-empty year bucket.

The shallow embedding below models:
  - spreadsheet cells, rows, grids and pandas DataFrames (index + rows);
  - the external world (filesystem existence, sheet reads, write outcome,
    output-directory existence) as an `Env` record;
  - the observable effects (log lines, mkdir, workbook write, read
    attempts) as an explicit event trace;
  - each method of `PCATEffectExtractor` as a pure function from the
    extractor state and the environment to a new state and a trace.
Python `str(year)` is modelled by `Int.repr`, and Python's substring
test `s in t` by `pyIn`.
-/
import Mathlib

set_option maxHeartbeats 1000000

/-- A spreadsheet cell: a string, an integer, or blank.  Cell contents are
never interpreted by the program, so this concrete alphabet suffices. -/
inductive Cell where
  | str : String → Cell
  | num : Int → Cell
  | blank : Cell
deriving DecidableEq

/-- A row of cells. -/
abbrev Row := List Cell

/-- The contents of one worksheet, as a list of rows. -/
abbrev Grid := List Row

/-- Model of a pandas DataFrame: an integer index plus the data rows. -/
structure DataFrame where
  index : List Nat
  rows : List Row
deriving DecidableEq

/-- Severity levels of the logging calls in the script. -/
inductive LogLevel where
  | info | warning | error | critical
deriving DecidableEq

/-- Observable effects of the program: log lines, directory creation,
workbook writes, and attempts to read a source file (the call into
`pd.read_excel`). -/
inductive Event where
  | log : LogLevel → String → Event
  | mkdir : String → Event
  | writeWorkbook : String → List (String × DataFrame) → Event
  | readAttempt : String → Event
deriving DecidableEq

/-- The years configured by default: `list(range(2014, 2025))`. -/
def defaultYears : List Int := (List.range 11).map (fun i => 2014 + (i : Int))

/-- Embedding of the `ExtractionConfig` dataclass with its defaults
(`__post_init__` fills `years` with `range(2014, 2025)`). -/
structure ExtractionConfig where
  sheet_name : String := "EFEITO"
  start_col : String := "AI"
  end_col : String := "AV"
  start_row : Nat := 1
  end_row : Nat := 11
  years : List Int := defaultYears

/-- The external world: which paths exist, what reading a sheet of a file
yields (`Except.error` models a raised exception with its message), whether
the consolidated write raises, and whether the output directory exists. -/
structure Env where
  pathExists : String → Bool
  readSheet : String → String → Except String Grid
  writeOutcome : Except String Unit
  dirExists : Bool

/-- Auxiliary for `pyIn`: does `needle` occur as a contiguous sublist of the
second argument? -/
def subOccurs (needle : List Char) : List Char → Bool
  | [] => needle.isEmpty
  | c :: rest => needle.isPrefixOf (c :: rest) || subOccurs needle rest

/-- Model of Python's substring test `needle in hay`. -/
def pyIn (needle hay : String) : Bool :=
  subOccurs needle.toList hay.toList

/-- Zero-based index of a spreadsheet column given by letters
(`"A"` is 0, `"AI"` is 34, `"AV"` is 47), as used by pandas `usecols`. -/
def excelColIdx (s : String) : Nat :=
  s.toList.foldl (fun a c => a * 26 + (c.toNat - 64)) 0 - 1

/-- Model of the `pd.read_excel(..., usecols=f"{start_col}:{end_col}",
nrows=..., skiprows=...)` region selection on an already-loaded grid:
skip `skiprows` rows, take `nrows` rows, and keep the configured column
slice of each row; the resulting frame gets a fresh 0-based index. -/
def read_excel (grid : Grid) (start_col end_col : String) (nrows skiprows : Nat) : DataFrame :=
  let c1 := excelColIdx start_col
  let c2 := excelColIdx end_col
  let rows := ((grid.drop skiprows).take nrows).map (fun r => (r.drop c1).take (c2 - c1 + 1))
  { index := List.range rows.length, rows := rows }

/-- Insert a cell at position `i` of a row (pandas `DataFrame.insert` adds
the column to every row). -/
def rowInsert (i : Nat) (c : Cell) (r : Row) : Row :=
  r.take i ++ c :: r.drop i

/-- Model of `df.insert(i, column_name, value)` with a constant value. -/
def dfInsert (i : Nat) (c : Cell) (df : DataFrame) : DataFrame :=
  { df with rows := df.rows.map (rowInsert i c) }

/-- Model of `pd.concat(dfs, ignore_index=True)`: stack all rows and reset
the index. -/
def pdConcatIgnoreIndex (dfs : List DataFrame) : DataFrame :=
  let rows := (dfs.map DataFrame.rows).flatten
  { index := List.range rows.length, rows := rows }

/-- The extractor state: configuration, output folder, the fixed file list,
and the per-year buckets (`data_by_year`). -/
structure PCATEffectExtractor where
  config : ExtractionConfig
  output_folder : String
  files_to_process : List (String × String)
  data_by_year : Int → List DataFrame

/-- The hardcoded `(path, description)` list from `__init__`. -/
def initialFiles : List (String × String) :=
  [ ("C:\\Users\\Hiden Number\\Desktop\\PCATs\\PCAT_Cemar_2014.xlsx", "PCAT Maranhão 2014"),
    ("C:\\Users\\Hiden Number\\Desktop\\PCATs\\PCAT_Cemar_2015.xlsx", "PCAT Maranhão 2015"),
    ("C:\\Users\\Hiden Number\\Desktop\\PCATs\\PCAT_Cemar_2016.xlsx", "PCAT Maranhão 2016"),
    ("C:\\Users\\Hiden Number\\Desktop\\PCATs\\PCAT_Cemar_2017.xlsx", "PCAT Maranhão 2017"),
    ("C:\\Users\\Hiden Number\\Desktop\\PCATs\\PCAT_Cemar_2018 .xlsx", "PCAT Maranhão 2018"),
    ("C:\\Users\\Hiden Number\\Desktop\\PCATs\\PCAT_Cemar_2019.xlsx", "PCAT Maranhão 2019"),
    ("C:\\Users\\Hiden Number\\Desktop\\PCATs\\PCAT_Cemar_2020 V02.xlsx", "PCAT Maranhão 2020"),
    ("C:\\Users\\Hiden Number\\Desktop\\PCATs\\PCAT Cemar 2021 V02.xlsx", "PCAT Maranhão 2021"),
    ("C:\\Users\\Hiden Number\\Desktop\\PCATs\\PCAT Cemar 2022 V02.xlsx", "PCAT Maranhão 2022"),
    ("C:\\Users\\Hiden Number\\Desktop\\PCATs\\PCAT Equatorial MA 2023 V02.xlsx", "PCAT Maranhão 2023"),
    ("C:\\Users\\Hiden Number\\Desktop\\PCATs\\PCAT Equatorial MA 2024 V02.xlsx", "PCAT Maranhão 2024"),
    ("C:\\Users\\Hiden Number\\Desktop\\PCATs\\PCAT Equatorial MA 2025 V02.xlsx", "PCAT Maranhão 2025") ]

/-- Embedding of `__init__`: `output_folder = os.path.join(os.getcwd(),
"resultados_efeito")` (the current working directory is a parameter of the
model), the fixed file list, and empty buckets for every year. -/
def PCATEffectExtractor.init (cwd : String) (config : ExtractionConfig) : PCATEffectExtractor :=
  { config := config
    output_folder := cwd ++ "/resultados_efeito"
    files_to_process := initialFiles
    data_by_year := fun _ => [] }

namespace PCATEffectExtractor

/-- Embedding of `_create_output_directory` (the leading underscore of the
Python name is dropped): create the folder only when it does not exist,
logging the creation. -/
def create_output_directory (self : PCATEffectExtractor) (env : Env) :
    PCATEffectExtractor × List Event :=
  if env.dirExists then (self, [])
  else (self, [Event.mkdir self.output_folder,
               Event.log LogLevel.info ("Diretório criado: " ++ self.output_folder)])

/-- Embedding of `extract_data_from_file`: read the configured region of
the configured sheet, insert the description at column 0 and the path at
column 1; on any exception, log the error and return the `None` sentinel
(modelled by `none`).  The result carries the (unchanged) state, the
optional table, and the trace. -/
def extract_data_from_file (self : PCATEffectExtractor) (env : Env)
    (file_info : String × String) :
    PCATEffectExtractor × Option DataFrame × List Event :=
  let file_path := file_info.1
  let description := file_info.2
  match env.readSheet file_path self.config.sheet_name with
  | Except.ok grid =>
      let df := read_excel grid self.config.start_col self.config.end_col
        (self.config.end_row - self.config.start_row + 1) (self.config.start_row - 1)
      let df := dfInsert 0 (Cell.str description) df
      let df := dfInsert 1 (Cell.str file_path) df
      (self, some df, [Event.readAttempt file_path])
  | Except.error e =>
      (self, none,
       [Event.readAttempt file_path,
        Event.log LogLevel.error
          ("Erro ao processar " ++ description ++ " (" ++ file_path ++ "): " ++ e)])

/-- The year-matching loop of `process_files`: the first configured year
whose decimal string occurs in the file path. -/
def firstMatchingYear (years : List Int) (file_path : String) : Option Int :=
  years.find? (fun y => pyIn (Int.repr y) file_path)

/-- One iteration of the `process_files` loop: skip empty paths silently,
log and skip nonexistent paths, otherwise extract and append the table to
the bucket of the first matching year (if any). -/
def processOne (self : PCATEffectExtractor) (env : Env) (file_info : String × String) :
    PCATEffectExtractor × List Event :=
  let file_path := file_info.1
  let description := file_info.2
  if file_path == "" then (self, [])
  else if !(env.pathExists file_path) then
    (self, [Event.log LogLevel.error ("Arquivo não encontrado: " ++ file_path)])
  else
    let ev0 := [Event.log LogLevel.info ("Processando arquivo: " ++ description)]
    let ex := extract_data_from_file self env file_info
    match ex.2.1 with
    | none => (ex.1, ev0 ++ ex.2.2)
    | some df =>
        match firstMatchingYear ex.1.config.years file_path with
        | none => (ex.1, ev0 ++ ex.2.2)
        | some y =>
            ({ ex.1 with data_by_year := fun z =>
                 if z = y then ex.1.data_by_year z ++ [df] else ex.1.data_by_year z },
             ev0 ++ ex.2.2 ++
               [Event.log LogLevel.info
                 ("Dados de " ++ description ++ " adicionados ao ano " ++ Int.repr y)])

/-- The `process_files` loop over an explicit file list. -/
def processFilesGo (env : Env) :
    PCATEffectExtractor → List (String × String) → PCATEffectExtractor × List Event
  | s, [] => (s, [])
  | s, fi :: rest =>
      let r1 := processOne s env fi
      let r2 := processFilesGo env r1.1 rest
      (r2.1, r1.2 ++ r2.2)

/-- Embedding of `process_files`: iterate over `files_to_process`. -/
def process_files (self : PCATEffectExtractor) (env : Env) :
    PCATEffectExtractor × List Event :=
  processFilesGo env self self.files_to_process

/-- The per-year loop inside `save_consolidated_file`: for each year in
order, a sheet named `str(year)` holding the concatenation of its bucket
when the bucket is non-empty, and a warning when it is empty. -/
def buildSheets (data : Int → List DataFrame) :
    List Int → List (String × DataFrame) × List Event
  | [] => ([], [])
  | y :: ys =>
      let rest := buildSheets data ys
      if (data y).isEmpty then
        (rest.1,
         Event.log LogLevel.warning ("Nenhum dado encontrado para o ano " ++ Int.repr y)
           :: rest.2)
      else
        ((Int.repr y, pdConcatIgnoreIndex (data y)) :: rest.1,
         Event.log LogLevel.info ("Dados do ano " ++ Int.repr y ++ " salvos com sucesso")
           :: rest.2)

/-- Embedding of `save_consolidated_file`: on a write failure the exception
is caught and logged and nothing else happens; otherwise the per-year
sheets are written as one workbook and the final info line is logged. -/
def save_consolidated_file (self : PCATEffectExtractor) (env : Env) :
    PCATEffectExtractor × List Event :=
  let output_file := self.output_folder ++ "/PCAT_Efeito_Consolidado.xlsx"
  match env.writeOutcome with
  | Except.error e =>
      (self, [Event.log LogLevel.error ("Erro ao salvar arquivo consolidado: " ++ e)])
  | Except.ok _ =>
      let bs := buildSheets self.data_by_year self.config.years
      (self, bs.2 ++
        [Event.writeWorkbook output_file bs.1,
         Event.log LogLevel.info ("Arquivo consolidado salvo em: " ++ output_file)])

/-- Embedding of `run`: guard on `not any(path ...)`, then directory
creation, file processing, consolidated save, and the unconditional final
success log line. -/
def run (self : PCATEffectExtractor) (env : Env) : PCATEffectExtractor × List Event :=
  let ev0 := [Event.log LogLevel.info "Iniciando processamento dos arquivos PCAT"]
  if self.files_to_process.all (fun fi => fi.1 == "") then
    (self, ev0 ++ [Event.log LogLevel.error "Nenhum arquivo configurado para processamento"])
  else
    let r1 := create_output_directory self env
    let r2 := process_files r1.1 env
    let r3 := save_consolidated_file r2.1 env
    (r3.1, ev0 ++ r1.2 ++ r2.2 ++ r3.2 ++
      [Event.log LogLevel.info "Processamento concluído com sucesso!"])

end PCATEffectExtractor

/-- Is this event a directory creation? -/
def eventIsMkdir : Event → Bool
  | Event.mkdir _ => true
  | _ => false

/-- Is this event a workbook write? -/
def eventIsWrite : Event → Bool
  | Event.writeWorkbook _ _ => true
  | _ => false

/-! ### Decimal representation: `Int.repr` is injective

`str(year)` is modelled by `Int.repr`.  To show that an empty year bucket
yields no sheet carrying that year's name we need that distinct years have
distinct decimal strings.  We prove it by evaluating the digit list back
to the number. -/

/-- The decimal digits of a natural number, most significant first. -/
def decDigits (n : Nat) : List Nat :=
  if n < 10 then [n]
  else decDigits (n / 10) ++ [n % 10]
decreasing_by exact Nat.div_lt_self (by omega) (by omega)

theorem decDigits_lt (n : Nat) : ∀ d ∈ decDigits n, d < 10 := by
  induction n using Nat.strong_induction_on with
  | _ n ih =>
    rw [decDigits]
    by_cases h : n < 10
    · simp [h]
    · simp only [h, if_false]
      intro d hd
      rcases List.mem_append.1 hd with h1 | h2
      · exact ih (n / 10) (Nat.div_lt_self (by omega) (by omega)) d h1
      · simp only [List.mem_singleton] at h2
        omega

theorem decDigits_ne_nil (n : Nat) : decDigits n ≠ [] := by
  rw [decDigits]
  by_cases h : n < 10 <;> simp [h]

theorem decDigits_foldl (n : Nat) :
    ∀ a : Nat, (decDigits n).foldl (fun a d => a * 10 + d) a
      = a * 10 ^ (decDigits n).length + n := by
  induction n using Nat.strong_induction_on with
  | _ n ih =>
    intro a
    rw [decDigits]
    by_cases h : n < 10
    · simp [h]
    · simp only [h, if_false]
      rw [List.foldl_append]
      rw [ih (n / 10) (Nat.div_lt_self (by omega) (by omega)) a]
      simp only [List.foldl_cons, List.foldl_nil, List.length_append,
        List.length_singleton]
      calc (a * 10 ^ (decDigits (n / 10)).length + n / 10) * 10 + n % 10
          = a * (10 ^ (decDigits (n / 10)).length * 10) + (10 * (n / 10) + n % 10) := by
            ring
        _ = a * 10 ^ ((decDigits (n / 10)).length + 1) + n := by
            rw [pow_succ, Nat.div_add_mod]

theorem decDigits_injective : Function.Injective decDigits := by
  intro m n h
  have hm := decDigits_foldl m 0
  have hn := decDigits_foldl n 0
  rw [h] at hm
  simp only [Nat.zero_mul, Nat.zero_add] at hm hn
  exact hm.symm.trans hn

theorem digitChar_inj_lt (a b : Nat) (ha : a < 10) (hb : b < 10)
    (h : Nat.digitChar a = Nat.digitChar b) : a = b := by
  have key : ∀ (x y : Fin 10), Nat.digitChar x.val = Nat.digitChar y.val → x = y := by
    decide
  exact congrArg Fin.val (key ⟨a, ha⟩ ⟨b, hb⟩ h)

theorem map_digitChar_inj :
    ∀ (l1 l2 : List Nat), (∀ d ∈ l1, d < 10) → (∀ d ∈ l2, d < 10) →
      l1.map Nat.digitChar = l2.map Nat.digitChar → l1 = l2 := by
  intro l1
  induction l1 with
  | nil => intro l2 _ _ h; cases l2 <;> simp_all
  | cons a t ih =>
    intro l2 h1 h2 h
    cases l2 with
    | nil => simp at h
    | cons b u =>
      simp only [List.map_cons, List.cons.injEq] at h
      have hab : a = b :=
        digitChar_inj_lt a b (h1 a (by simp)) (h2 b (by simp)) h.1
      have htu : t = u :=
        ih u (fun d hd => h1 d (by simp [hd])) (fun d hd => h2 d (by simp [hd])) h.2
      rw [hab, htu]

theorem toDigitsCore_shift (b : Nat) :
    ∀ (f n : Nat) (ds : List Char),
      Nat.toDigitsCore b f n ds = Nat.toDigitsCore b f n [] ++ ds := by
  intro f
  induction f with
  | zero => intro n ds; simp [Nat.toDigitsCore]
  | succ f ih =>
    intro n ds
    simp only [Nat.toDigitsCore]
    by_cases h : n / b = 0
    · simp [h]
    · simp only [h, if_false]
      rw [ih (n / b) (Nat.digitChar (n % b) :: ds),
        ih (n / b) [Nat.digitChar (n % b)]]
      simp

theorem toDigitsCore_eq_decDigits :
    ∀ (f n : Nat), n < f →
      Nat.toDigitsCore 10 f n [] = (decDigits n).map Nat.digitChar := by
  intro f
  induction f with
  | zero => intro n h; omega
  | succ f ih =>
    intro n h
    rw [decDigits]
    by_cases h10 : n < 10
    · have hdiv : n / 10 = 0 := by omega
      have hmod : n % 10 = n := by omega
      simp [Nat.toDigitsCore, hdiv, hmod, h10]
    · have hdiv : ¬ n / 10 = 0 := by omega
      have hlt : n / 10 < f := by
        have hx : n / 10 < n := Nat.div_lt_self (by omega) (by omega)
        omega
      simp only [Nat.toDigitsCore, hdiv, if_false, h10]
      rw [toDigitsCore_shift, ih (n / 10) hlt]
      simp

theorem natRepr_data (n : Nat) :
    (Nat.repr n).data = (decDigits n).map Nat.digitChar := by
  show (Nat.toDigits 10 n).asString.data = _
  rw [Nat.toDigits, toDigitsCore_eq_decDigits (n + 1) n (by omega)]
  rfl

theorem natReprData_inj {m n : Nat} (h : (Nat.repr m).data = (Nat.repr n).data) :
    m = n := by
  rw [natRepr_data, natRepr_data] at h
  exact decDigits_injective (map_digitChar_inj _ _ (decDigits_lt m) (decDigits_lt n) h)

theorem digitChar_ne_dash : ∀ (x : Fin 10), Nat.digitChar x.val ≠ '-' := by
  decide

theorem natRepr_data_ne_dash_cons (n : Nat) (l : List Char) :
    (Nat.repr n).data ≠ '-' :: l := by
  intro h
  rw [natRepr_data] at h
  rcases hd : decDigits n with _ | ⟨d, t⟩
  · exact decDigits_ne_nil n hd
  · rw [hd] at h
    simp only [List.map_cons, List.cons.injEq] at h
    have hdlt : d < 10 := decDigits_lt n d (by rw [hd]; simp)
    exact digitChar_ne_dash ⟨d, hdlt⟩ h.1

theorem string_data_append (s t : String) : (s ++ t).data = s.data ++ t.data := by
  cases s
  cases t
  rfl

theorem intRepr_injective : Function.Injective Int.repr := by
  intro i j h
  have hd := congrArg String.data h
  cases i with
  | ofNat m =>
    cases j with
    | ofNat n =>
      simp only [Int.repr] at hd
      exact congrArg Int.ofNat (natReprData_inj hd)
    | negSucc n =>
      simp only [Int.repr] at hd
      rw [string_data_append] at hd
      exact absurd hd (natRepr_data_ne_dash_cons m _)
  | negSucc m =>
    cases j with
    | ofNat n =>
      simp only [Int.repr] at hd
      rw [string_data_append] at hd
      exact absurd hd.symm (natRepr_data_ne_dash_cons n _)
    | negSucc n =>
      simp only [Int.repr] at hd
      rw [string_data_append, string_data_append] at hd
      simp only [List.append_cancel_left_eq] at hd
      have := natReprData_inj (m := Nat.succ m) (n := Nat.succ n) hd
      simp only [Int.negSucc.injEq]
      omega

/-! ### Helper lemmas about the embedded operations -/

/-- The table produced by a successful extraction: the configured region
with the description inserted at column 0 and the path at column 1. -/
def extractedDF (cfg : ExtractionConfig) (grid : Grid) (file_path description : String) :
    DataFrame :=
  dfInsert 1 (Cell.str file_path)
    (dfInsert 0 (Cell.str description)
      (read_excel grid cfg.start_col cfg.end_col
        (cfg.end_row - cfg.start_row + 1) (cfg.start_row - 1)))

theorem extract_ok (self : PCATEffectExtractor) (env : Env)
    (file_path description : String) (grid : Grid)
    (hread : env.readSheet file_path self.config.sheet_name = Except.ok grid) :
    self.extract_data_from_file env (file_path, description)
      = (self, some (extractedDF self.config grid file_path description),
         [Event.readAttempt file_path]) := by
  unfold PCATEffectExtractor.extract_data_from_file
  dsimp only
  rw [hread]
  rfl

theorem extract_err (self : PCATEffectExtractor) (env : Env)
    (file_path description e : String)
    (hread : env.readSheet file_path self.config.sheet_name = Except.error e) :
    self.extract_data_from_file env (file_path, description)
      = (self, none,
         [Event.readAttempt file_path,
          Event.log LogLevel.error
            ("Erro ao processar " ++ description ++ " (" ++ file_path ++ "): " ++ e)]) := by
  unfold PCATEffectExtractor.extract_data_from_file
  dsimp only
  rw [hread]

theorem processOne_empty (self : PCATEffectExtractor) (env : Env) (description : String) :
    self.processOne env ("", description) = (self, []) := rfl

theorem processOne_missing (self : PCATEffectExtractor) (env : Env)
    (file_path description : String)
    (hne : file_path ≠ "") (hex : env.pathExists file_path = false) :
    self.processOne env (file_path, description)
      = (self, [Event.log LogLevel.error ("Arquivo não encontrado: " ++ file_path)]) := by
  have hb : (file_path == "") = false := by
    simp [hne]
  unfold PCATEffectExtractor.processOne
  simp [hb, hex]

theorem processOne_found (self : PCATEffectExtractor) (env : Env)
    (file_path description : String) (grid : Grid) (y : Int)
    (hne : file_path ≠ "") (hex : env.pathExists file_path = true)
    (hread : env.readSheet file_path self.config.sheet_name = Except.ok grid)
    (hfind : PCATEffectExtractor.firstMatchingYear self.config.years file_path = some y) :
    self.processOne env (file_path, description)
      = ({ self with data_by_year := fun z =>
             if z = y then
               self.data_by_year z ++ [extractedDF self.config grid file_path description]
             else self.data_by_year z },
         [Event.log LogLevel.info ("Processando arquivo: " ++ description),
          Event.readAttempt file_path,
          Event.log LogLevel.info
            ("Dados de " ++ description ++ " adicionados ao ano " ++ Int.repr y)]) := by
  have hb : (file_path == "") = false := by
    simp [hne]
  unfold PCATEffectExtractor.processOne
  simp only [hb, hex, Bool.not_true, Bool.false_eq_true, if_false,
    extract_ok self env file_path description grid hread, hfind]
  rfl

theorem processOne_nomatch (self : PCATEffectExtractor) (env : Env)
    (file_path description : String) (grid : Grid)
    (hne : file_path ≠ "") (hex : env.pathExists file_path = true)
    (hread : env.readSheet file_path self.config.sheet_name = Except.ok grid)
    (hfind : PCATEffectExtractor.firstMatchingYear self.config.years file_path = none) :
    self.processOne env (file_path, description)
      = (self,
         [Event.log LogLevel.info ("Processando arquivo: " ++ description),
          Event.readAttempt file_path]) := by
  have hb : (file_path == "") = false := by
    simp [hne]
  unfold PCATEffectExtractor.processOne
  simp only [hb, hex, Bool.not_true, Bool.false_eq_true, if_false,
    extract_ok self env file_path description grid hread, hfind]
  rfl

theorem processOne_read_fail (self : PCATEffectExtractor) (env : Env)
    (file_path description e : String)
    (hne : file_path ≠ "") (hex : env.pathExists file_path = true)
    (hread : env.readSheet file_path self.config.sheet_name = Except.error e) :
    self.processOne env (file_path, description)
      = (self,
         [Event.log LogLevel.info ("Processando arquivo: " ++ description),
          Event.readAttempt file_path,
          Event.log LogLevel.error
            ("Erro ao processar " ++ description ++ " (" ++ file_path ++ "): " ++ e)]) := by
  have hb : (file_path == "") = false := by
    simp [hne]
  unfold PCATEffectExtractor.processOne
  simp only [hb, hex, Bool.not_true, Bool.false_eq_true, if_false,
    extract_err self env file_path description e hread]
  rfl

theorem processFilesGo_cons (env : Env) (s : PCATEffectExtractor)
    (fi : String × String) (rest : List (String × String)) :
    PCATEffectExtractor.processFilesGo env s (fi :: rest)
      = ((PCATEffectExtractor.processFilesGo env (s.processOne env fi).1 rest).1,
         (s.processOne env fi).2
           ++ (PCATEffectExtractor.processFilesGo env (s.processOne env fi).1 rest).2) := rfl

theorem find?_of_filter_eq_singleton {α : Type} {p : α → Bool} :
    ∀ {l : List α} {a : α}, l.filter p = [a] → l.find? p = some a := by
  intro l
  induction l with
  | nil => intro a h; simp at h
  | cons x t ih =>
    intro a h
    by_cases hx : p x
    · rw [List.filter_cons_of_pos hx] at h
      simp only [List.cons.injEq] at h
      rw [List.find?_cons_of_pos _ hx, h.1]
    · rw [List.filter_cons_of_neg hx] at h
      rw [List.find?_cons_of_neg _ hx]
      exact ih h

theorem find?_of_filter_eq_nil {α : Type} {p : α → Bool} :
    ∀ {l : List α}, l.filter p = [] → l.find? p = none := by
  intro l
  induction l with
  | nil => intro h; rfl
  | cons x t ih =>
    intro h
    by_cases hx : p x
    · rw [List.filter_cons_of_pos hx] at h
      simp at h
    · rw [List.filter_cons_of_neg hx] at h
      rw [List.find?_cons_of_neg _ hx]
      exact ih h

theorem buildSheets_sheets (data : Int → List DataFrame) :
    ∀ years : List Int,
      (PCATEffectExtractor.buildSheets data years).1
        = years.filterMap (fun y =>
            if (data y).isEmpty then none
            else some (Int.repr y, pdConcatIgnoreIndex (data y))) := by
  intro years
  induction years with
  | nil => rfl
  | cons y ys ih =>
    simp only [PCATEffectExtractor.buildSheets, List.filterMap_cons]
    by_cases h : (data y).isEmpty <;> simp [h, ih]

theorem buildSheets_warning (data : Int → List DataFrame) :
    ∀ (years : List Int) (y : Int), y ∈ years → (data y).isEmpty = true →
      Event.log LogLevel.warning ("Nenhum dado encontrado para o ano " ++ Int.repr y)
        ∈ (PCATEffectExtractor.buildSheets data years).2 := by
  intro years
  induction years with
  | nil => intro y hy; cases hy
  | cons z zs ih =>
    intro y hy he
    simp only [PCATEffectExtractor.buildSheets]
    rcases List.mem_cons.1 hy with rfl | hmem
    · simp [he]
    · by_cases hz : (data z).isEmpty <;> simp [hz, ih y hmem he]

theorem buildSheets_no_sheet (data : Int → List DataFrame)
    (years : List Int) (y : Int) (he : (data y).isEmpty = true) :
    ∀ df : DataFrame, (Int.repr y, df) ∉ (PCATEffectExtractor.buildSheets data years).1 := by
  intro df hmem
  rw [buildSheets_sheets] at hmem
  rcases List.mem_filterMap.1 hmem with ⟨z, _, hz2⟩
  by_cases hze : (data z).isEmpty
  · simp [hze] at hz2
  · simp only [hze, Bool.false_eq_true, if_false, Option.some.injEq, Prod.mk.injEq] at hz2
    have hzy : z = y := intRepr_injective hz2.1
    rw [hzy] at hze
    exact hze he

/-! ### Concrete sample inputs used by the witnesses -/

/-- A small one-row sheet. -/
def sampleGrid : Grid := [[Cell.num 1, Cell.num 2]]

/-- A small table. -/
def sampleDF : DataFrame := { index := [0], rows := [[Cell.num 5]] }

/-- An environment in which everything succeeds. -/
def envAllOk : Env :=
  { pathExists := fun _ => true
    readSheet := fun _ _ => Except.ok sampleGrid
    writeOutcome := Except.ok ()
    dirExists := true }

/-- An environment in which no path exists. -/
def envMissing : Env :=
  { pathExists := fun _ => false
    readSheet := fun _ _ => Except.ok sampleGrid
    writeOutcome := Except.ok ()
    dirExists := true }

/-- An environment in which every sheet read raises. -/
def envReadFail : Env :=
  { pathExists := fun _ => true
    readSheet := fun _ _ => Except.error "bad file"
    writeOutcome := Except.ok ()
    dirExists := true }

/-- An environment in which the consolidated write raises. -/
def envWriteFail : Env :=
  { pathExists := fun _ => true
    readSheet := fun _ _ => Except.ok sampleGrid
    writeOutcome := Except.error "disk full"
    dirExists := true }

/-- An environment in which the output directory is absent. -/
def envNoDir : Env :=
  { pathExists := fun _ => true
    readSheet := fun _ _ => Except.ok sampleGrid
    writeOutcome := Except.ok ()
    dirExists := false }

/-- A freshly constructed extractor with the default configuration. -/
def sampleSelf : PCATEffectExtractor := PCATEffectExtractor.init "." {}

/-- An extractor whose 2020 bucket holds one table and whose other buckets
are empty. -/
def sampleSelfBuckets : PCATEffectExtractor :=
  { sampleSelf with data_by_year := fun z => if z = 2020 then [sampleDF] else [] }

/-- An extractor whose configured file entries all have empty paths. -/
def sampleSelfEmptyPaths : PCATEffectExtractor :=
  { sampleSelf with files_to_process := [("", "entrada vazia")] }

/-! ### The claims -/

/-- C1: for a successfully extracted table, the owning year is determined
by testing, in configured year order, whether the year's decimal string is
a substring of the file path; the table is appended to the first matching
year's bucket and to no other bucket.  In particular, when exactly one
configured year's decimal string occurs in the path, the table lands in
that year's bucket and nowhere else. -/
theorem claim1_first_matching_year_bucket
    (self : PCATEffectExtractor) (env : Env) (file_path description : String) (grid : Grid)
    (hne : file_path ≠ "")
    (hex : env.pathExists file_path = true)
    (hread : env.readSheet file_path self.config.sheet_name = Except.ok grid) :
    ∃ df, (self.extract_data_from_file env (file_path, description)).2.1 = some df ∧
      (∀ y, self.config.years.find? (fun z => pyIn (Int.repr z) file_path) = some y →
        (self.processOne env (file_path, description)).1.data_by_year y
            = self.data_by_year y ++ [df] ∧
        ∀ z, z ≠ y →
          (self.processOne env (file_path, description)).1.data_by_year z
              = self.data_by_year z) ∧
      (∀ y, self.config.years.filter (fun z => pyIn (Int.repr z) file_path) = [y] →
        (self.processOne env (file_path, description)).1.data_by_year y
            = self.data_by_year y ++ [df] ∧
        ∀ z, z ≠ y →
          (self.processOne env (file_path, description)).1.data_by_year z
              = self.data_by_year z) := by
  refine ⟨extractedDF self.config grid file_path description,
    by rw [extract_ok self env file_path description grid hread], ?_, ?_⟩
  · intro y hy
    rw [processOne_found self env file_path description grid y hne hex hread hy]
    refine ⟨by simp, fun z hz => by simp [hz]⟩
  · intro y hy
    have hy2 : PCATEffectExtractor.firstMatchingYear self.config.years file_path = some y :=
      find?_of_filter_eq_singleton hy
    rw [processOne_found self env file_path description grid y hne hex hread hy2]
    refine ⟨by simp, fun z hz => by simp [hz]⟩

/-- Witness for C1: the path `"a2020"` contains exactly the configured
year 2020, and the table lands in the 2020 bucket while (for instance) the
2019 bucket is untouched. -/
theorem claim1_witness :
    (sampleSelf.processOne envAllOk ("a2020", "d")).1.data_by_year 2020
      = sampleSelf.data_by_year 2020
        ++ [extractedDF sampleSelf.config sampleGrid "a2020" "d"] ∧
    (sampleSelf.processOne envAllOk ("a2020", "d")).1.data_by_year 2019
      = sampleSelf.data_by_year 2019 := by
  obtain ⟨df, hdf, _, hsingle⟩ :=
    claim1_first_matching_year_bucket sampleSelf envAllOk "a2020" "d" sampleGrid
      (by decide) rfl rfl
  have hdf2 : df = extractedDF sampleSelf.config sampleGrid "a2020" "d" := by
    rw [extract_ok sampleSelf envAllOk "a2020" "d" sampleGrid rfl] at hdf
    exact (Option.some.inj hdf).symm
  obtain ⟨h2020, hother⟩ := hsingle 2020 (by decide)
  exact ⟨hdf2 ▸ h2020, hother 2019 (by decide)⟩

/-- C2: when the file path matches no configured year, the successfully
extracted table is silently dropped: the extractor state is unchanged (in
particular every bucket, and hence every sheet of the output workbook, is
as if the file had never been read) and no error is logged. -/
theorem claim2_unmatched_table_silently_dropped
    (self : PCATEffectExtractor) (env : Env) (file_path description : String) (grid : Grid)
    (hne : file_path ≠ "")
    (hex : env.pathExists file_path = true)
    (hread : env.readSheet file_path self.config.sheet_name = Except.ok grid)
    (hnomatch : self.config.years.filter (fun z => pyIn (Int.repr z) file_path) = []) :
    (∃ df, (self.extract_data_from_file env (file_path, description)).2.1 = some df) ∧
    (self.processOne env (file_path, description)).1 = self ∧
    PCATEffectExtractor.buildSheets
        (self.processOne env (file_path, description)).1.data_by_year self.config.years
      = PCATEffectExtractor.buildSheets self.data_by_year self.config.years ∧
    ∀ msg, Event.log LogLevel.error msg ∉ (self.processOne env (file_path, description)).2 := by
  have hfind : PCATEffectExtractor.firstMatchingYear self.config.years file_path = none :=
    find?_of_filter_eq_nil hnomatch
  rw [processOne_nomatch self env file_path description grid hne hex hread hfind]
  refine ⟨⟨_, by rw [extract_ok self env file_path description grid hread]⟩, rfl, rfl, ?_⟩
  intro msg hmem
  simp at hmem

/-- Witness for C2: a path containing no configured year leaves the state
unchanged. -/
theorem claim2_witness :
    (sampleSelf.processOne envAllOk ("abc.xlsx", "d")).1 = sampleSelf ∧
    ∀ msg, Event.log LogLevel.error msg
      ∉ (sampleSelf.processOne envAllOk ("abc.xlsx", "d")).2 := by
  obtain ⟨_, hstate, _, hnoerr⟩ :=
    claim2_unmatched_table_silently_dropped sampleSelf envAllOk "abc.xlsx" "d" sampleGrid
      (by decide) rfl rfl (by decide)
  exact ⟨hstate, hnoerr⟩

theorem save_ok (self : PCATEffectExtractor) (env : Env)
    (hok : env.writeOutcome = Except.ok ()) :
    self.save_consolidated_file env
      = (self,
         (PCATEffectExtractor.buildSheets self.data_by_year self.config.years).2 ++
           [Event.writeWorkbook (self.output_folder ++ "/PCAT_Efeito_Consolidado.xlsx")
              (PCATEffectExtractor.buildSheets self.data_by_year self.config.years).1,
            Event.log LogLevel.info ("Arquivo consolidado salvo em: "
              ++ (self.output_folder ++ "/PCAT_Efeito_Consolidado.xlsx"))]) := by
  unfold PCATEffectExtractor.save_consolidated_file
  dsimp only
  rw [hok]

/-- C3: on a successful write, `save_consolidated_file` emits one workbook
whose sheets are, in configured year order, exactly the non-empty buckets:
each such sheet is named `str(year)` and holds the row-wise concatenation
of the bucket's tables with the index reset; every empty bucket logs a
warning and no sheet carrying that year's name appears. -/
theorem claim3_save_one_sheet_per_nonempty_year
    (self : PCATEffectExtractor) (env : Env)
    (hok : env.writeOutcome = Except.ok ()) :
    Event.writeWorkbook (self.output_folder ++ "/PCAT_Efeito_Consolidado.xlsx")
        (PCATEffectExtractor.buildSheets self.data_by_year self.config.years).1
      ∈ (self.save_consolidated_file env).2 ∧
    (PCATEffectExtractor.buildSheets self.data_by_year self.config.years).1
      = self.config.years.filterMap (fun y =>
          if (self.data_by_year y).isEmpty then none
          else some (Int.repr y, pdConcatIgnoreIndex (self.data_by_year y))) ∧
    (∀ y ∈ self.config.years, (self.data_by_year y).isEmpty = false →
      ∃ df, (Int.repr y, df)
          ∈ (PCATEffectExtractor.buildSheets self.data_by_year self.config.years).1 ∧
        df.rows = ((self.data_by_year y).map DataFrame.rows).flatten ∧
        df.index = List.range df.rows.length) ∧
    (∀ y ∈ self.config.years, (self.data_by_year y).isEmpty = true →
      Event.log LogLevel.warning ("Nenhum dado encontrado para o ano " ++ Int.repr y)
        ∈ (PCATEffectExtractor.buildSheets self.data_by_year self.config.years).2 ∧
      ∀ df, (Int.repr y, df)
          ∉ (PCATEffectExtractor.buildSheets self.data_by_year self.config.years).1) := by
  refine ⟨?_, buildSheets_sheets self.data_by_year self.config.years, ?_, ?_⟩
  · rw [save_ok self env hok]
    simp
  · intro y hy hne
    refine ⟨pdConcatIgnoreIndex (self.data_by_year y), ?_, rfl, rfl⟩
    rw [buildSheets_sheets]
    exact List.mem_filterMap.2 ⟨y, hy, by simp [hne]⟩
  · intro y hy he
    exact ⟨buildSheets_warning self.data_by_year self.config.years y hy he,
      buildSheets_no_sheet self.data_by_year self.config.years y he⟩

/-- Witness for C3: with only the 2020 bucket non-empty, the workbook has
a "2020" sheet with the concatenated rows and no sheet named "2014". -/
theorem claim3_witness :
    envAllOk.writeOutcome = Except.ok () ∧
    (2020 : Int) ∈ sampleSelfBuckets.config.years ∧
    (sampleSelfBuckets.data_by_year 2020).isEmpty = false ∧
    (2014 : Int) ∈ sampleSelfBuckets.config.years ∧
    (sampleSelfBuckets.data_by_year 2014).isEmpty = true ∧
    (∃ df, (Int.repr 2020, df)
        ∈ (PCATEffectExtractor.buildSheets
            sampleSelfBuckets.data_by_year sampleSelfBuckets.config.years).1 ∧
      df.rows = ((sampleSelfBuckets.data_by_year 2020).map DataFrame.rows).flatten ∧
      df.index = List.range df.rows.length) ∧
    (∀ df, (Int.repr 2014, df)
        ∉ (PCATEffectExtractor.buildSheets
            sampleSelfBuckets.data_by_year sampleSelfBuckets.config.years).1) := by
  obtain ⟨_, _, hsheet, hwarn⟩ :=
    claim3_save_one_sheet_per_nonempty_year sampleSelfBuckets envAllOk rfl
  exact ⟨rfl, by decide, by decide, by decide, by decide,
    hsheet 2020 (by decide) (by decide), (hwarn 2014 (by decide) (by decide)).2⟩

/-- C4: a successful extraction returns exactly the configured rectangular
region: skip `start_row - 1` rows, take `end_row - start_row + 1` rows,
slice columns `start_col` through `end_col`, and prepend the description
(position 0) and the literal file path (position 1) to every row. -/
theorem claim4_extract_reads_configured_region
    (self : PCATEffectExtractor) (env : Env) (file_path description : String) (grid : Grid)
    (hread : env.readSheet file_path self.config.sheet_name = Except.ok grid) :
    ∃ df, (self.extract_data_from_file env (file_path, description)).2.1 = some df ∧
      df.rows = ((grid.drop (self.config.start_row - 1)).take
          (self.config.end_row - self.config.start_row + 1)).map
        (fun r => Cell.str description :: Cell.str file_path ::
          ((r.drop (excelColIdx self.config.start_col)).take
            (excelColIdx self.config.end_col - excelColIdx self.config.start_col + 1))) ∧
      df.index = List.range
        ((grid.drop (self.config.start_row - 1)).take
          (self.config.end_row - self.config.start_row + 1)).length := by
  refine ⟨extractedDF self.config grid file_path description,
    by rw [extract_ok self env file_path description grid hread], ?_, ?_⟩
  · show (dfInsert 1 (Cell.str file_path) (dfInsert 0 (Cell.str description) _)).rows = _
    simp only [dfInsert, read_excel, List.map_map]
    congr 1
  · show (dfInsert 1 (Cell.str file_path) (dfInsert 0 (Cell.str description) _)).index = _
    simp [dfInsert, read_excel]

/-- Witness for C4 on a concrete one-row grid. -/
theorem claim4_witness :
    ∃ df, (sampleSelf.extract_data_from_file envAllOk ("p.xlsx", "d")).2.1 = some df ∧
      df.rows = ((sampleGrid.drop (sampleSelf.config.start_row - 1)).take
          (sampleSelf.config.end_row - sampleSelf.config.start_row + 1)).map
        (fun r => Cell.str "d" :: Cell.str "p.xlsx" ::
          ((r.drop (excelColIdx sampleSelf.config.start_col)).take
            (excelColIdx sampleSelf.config.end_col
              - excelColIdx sampleSelf.config.start_col + 1))) ∧
      df.index = List.range
        ((sampleGrid.drop (sampleSelf.config.start_row - 1)).take
          (sampleSelf.config.end_row - sampleSelf.config.start_row + 1)).length :=
  claim4_extract_reads_configured_region sampleSelf envAllOk "p.xlsx" "d" sampleGrid rfl

/-- C5: when reading a file raises, the extraction returns the `None`
sentinel, the error is logged with the description, path and underlying
message, the extractor state is unchanged, and processing continues with
the remaining files. -/
theorem claim5_extraction_failure_logged_and_skipped
    (self : PCATEffectExtractor) (env : Env) (file_path description e : String)
    (rest : List (String × String))
    (hne : file_path ≠ "")
    (hex : env.pathExists file_path = true)
    (hread : env.readSheet file_path self.config.sheet_name = Except.error e) :
    (self.extract_data_from_file env (file_path, description)).2.1 = none ∧
    Event.log LogLevel.error
        ("Erro ao processar " ++ description ++ " (" ++ file_path ++ "): " ++ e)
      ∈ (self.extract_data_from_file env (file_path, description)).2.2 ∧
    (self.processOne env (file_path, description)).1 = self ∧
    (∀ z, (self.processOne env (file_path, description)).1.data_by_year z
        = self.data_by_year z) ∧
    PCATEffectExtractor.processFilesGo env self ((file_path, description) :: rest)
      = ((PCATEffectExtractor.processFilesGo env self rest).1,
         (self.processOne env (file_path, description)).2
           ++ (PCATEffectExtractor.processFilesGo env self rest).2) := by
  have hext := extract_err self env file_path description e hread
  have hone := processOne_read_fail self env file_path description e hne hex hread
  refine ⟨by rw [hext], by rw [hext]; simp, by rw [hone], fun z => by rw [hone], ?_⟩
  rw [processFilesGo_cons, hone]

/-- Witness for C5: a failing read in an environment where every read
raises. -/
theorem claim5_witness :
    (sampleSelf.extract_data_from_file envReadFail ("p2020.xlsx", "d")).2.1 = none ∧
    Event.log LogLevel.error
        ("Erro ao processar " ++ "d" ++ " (" ++ "p2020.xlsx" ++ "): " ++ "bad file")
      ∈ (sampleSelf.extract_data_from_file envReadFail ("p2020.xlsx", "d")).2.2 ∧
    (sampleSelf.processOne envReadFail ("p2020.xlsx", "d")).1 = sampleSelf := by
  obtain ⟨h1, h2, h3, _, _⟩ :=
    claim5_extraction_failure_logged_and_skipped sampleSelf envReadFail
      "p2020.xlsx" "d" "bad file" [] (by decide) rfl rfl
  exact ⟨h1, h2, h3⟩

/-- C6: a failing consolidated write is caught: the method returns
normally with the state unchanged and the only effect is the error log
line carrying the exception's message. -/
theorem claim6_save_failure_caught_and_logged
    (self : PCATEffectExtractor) (env : Env) (e : String)
    (hfail : env.writeOutcome = Except.error e) :
    self.save_consolidated_file env
      = (self, [Event.log LogLevel.error ("Erro ao salvar arquivo consolidado: " ++ e)]) := by
  unfold PCATEffectExtractor.save_consolidated_file
  dsimp only
  rw [hfail]

/-- Witness for C6: a concrete failing write. -/
theorem claim6_witness :
    sampleSelfBuckets.save_consolidated_file envWriteFail
      = (sampleSelfBuckets,
         [Event.log LogLevel.error ("Erro ao salvar arquivo consolidado: " ++ "disk full")]) :=
  claim6_save_failure_caught_and_logged sampleSelfBuckets envWriteFail "disk full" rfl

theorem buildSheets_only_logs (data : Int → List DataFrame) :
    ∀ (years : List Int) (ev : Event),
      ev ∈ (PCATEffectExtractor.buildSheets data years).2 →
        ∃ lvl msg, ev = Event.log lvl msg := by
  intro years
  induction years with
  | nil => intro ev h; cases h
  | cons y ys ih =>
    intro ev h
    simp only [PCATEffectExtractor.buildSheets] at h
    by_cases hy : (data y).isEmpty
    · simp only [hy, if_true] at h
      rcases List.mem_cons.1 h with rfl | hmem
      · exact ⟨_, _, rfl⟩
      · exact ih ev hmem
    · simp only [hy, Bool.false_eq_true, if_false] at h
      rcases List.mem_cons.1 h with rfl | hmem
      · exact ⟨_, _, rfl⟩
      · exact ih ev hmem

theorem save_no_mkdir (self : PCATEffectExtractor) (env : Env) :
    ∀ p, Event.mkdir p ∉ (self.save_consolidated_file env).2 := by
  intro p hmem
  unfold PCATEffectExtractor.save_consolidated_file at hmem
  dsimp only at hmem
  cases hw : env.writeOutcome with
  | error e =>
    rw [hw] at hmem
    simp at hmem
  | ok u =>
    rw [hw] at hmem
    simp only [List.mem_append, List.mem_cons, List.not_mem_nil] at hmem
    rcases hmem with hbs | h1 | h2 | h3
    · obtain ⟨lvl, msg, habs⟩ := buildSheets_only_logs self.data_by_year self.config.years _ hbs
      cases habs
    · cases h1
    · cases h2
    · cases h3

/-- C7: `run` logs an error and stops before any effect when every
configured entry has an empty path; otherwise it runs directory creation,
file processing and the consolidated save in sequence and ends with the
unconditional success log line, which is always the last event. -/
theorem claim7_run_guard_and_unconditional_success
    (self : PCATEffectExtractor) (env : Env) :
    (self.files_to_process.all (fun fi => fi.1 == "") = true →
      self.run env
        = (self,
           [Event.log LogLevel.info "Iniciando processamento dos arquivos PCAT",
            Event.log LogLevel.error "Nenhum arquivo configurado para processamento"]) ∧
      (∀ p, Event.mkdir p ∉ (self.run env).2) ∧
      (∀ p sheets, Event.writeWorkbook p sheets ∉ (self.run env).2) ∧
      (∀ p, Event.readAttempt p ∉ (self.run env).2)) ∧
    (self.files_to_process.all (fun fi => fi.1 == "") = false →
      self.run env
        = ((((self.create_output_directory env).1.process_files env).1.save_consolidated_file
              env).1,
           [Event.log LogLevel.info "Iniciando processamento dos arquivos PCAT"]
             ++ ((self.create_output_directory env).2
             ++ (((self.create_output_directory env).1.process_files env).2
             ++ ((((self.create_output_directory env).1.process_files env).1.save_consolidated_file
                    env).2
             ++ [Event.log LogLevel.info "Processamento concluído com sucesso!"])))) ∧
      (self.run env).2.getLast?
        = some (Event.log LogLevel.info "Processamento concluído com sucesso!")) := by
  constructor
  · intro hall
    have heq : self.run env
        = (self,
           [Event.log LogLevel.info "Iniciando processamento dos arquivos PCAT",
            Event.log LogLevel.error "Nenhum arquivo configurado para processamento"]) := by
      unfold PCATEffectExtractor.run
      simp [hall]
    refine ⟨heq, ?_, ?_, ?_⟩
    · intro p; rw [heq]; simp
    · intro p sheets; rw [heq]; simp
    · intro p; rw [heq]; simp
  · intro hfalse
    have heq : self.run env
        = ((((self.create_output_directory env).1.process_files env).1.save_consolidated_file
              env).1,
           [Event.log LogLevel.info "Iniciando processamento dos arquivos PCAT"]
             ++ ((self.create_output_directory env).2
             ++ (((self.create_output_directory env).1.process_files env).2
             ++ ((((self.create_output_directory env).1.process_files
                    env).1.save_consolidated_file env).2
             ++ [Event.log LogLevel.info "Processamento concluído com sucesso!"])))) := by
      unfold PCATEffectExtractor.run
      simp [hfalse, PCATEffectExtractor.process_files]
    refine ⟨heq, ?_⟩
    rw [heq]
    simp only [← List.append_assoc]
    rw [List.getLast?_concat]

/-- Witness for C7: both branches at concrete inputs — an extractor whose
only entry has an empty path, and the default extractor with its twelve
non-empty paths. -/
theorem claim7_witness :
    (sampleSelfEmptyPaths.files_to_process.all (fun fi => fi.1 == "") = true ∧
      sampleSelfEmptyPaths.run envAllOk
        = (sampleSelfEmptyPaths,
           [Event.log LogLevel.info "Iniciando processamento dos arquivos PCAT",
            Event.log LogLevel.error "Nenhum arquivo configurado para processamento"])) ∧
    (sampleSelf.files_to_process.all (fun fi => fi.1 == "") = false ∧
      (sampleSelf.run envAllOk).2.getLast?
        = some (Event.log LogLevel.info "Processamento concluído com sucesso!")) := by
  have h1 := (claim7_run_guard_and_unconditional_success sampleSelfEmptyPaths envAllOk).1
    (by decide)
  have h2 := (claim7_run_guard_and_unconditional_success sampleSelf envAllOk).2
    (by decide)
  exact ⟨⟨by decide, h1.1⟩, ⟨by decide, h2.2⟩⟩

/-- C8: in `process_files`, an entry with an empty path is skipped with no
log line and no extraction attempt; an entry whose path does not exist
logs an error, attempts no extraction, and processing continues with the
remaining entries. -/
theorem claim8_empty_path_silent_missing_path_logged
    (self : PCATEffectExtractor) (env : Env) (file_path description : String)
    (rest : List (String × String)) :
    (self.processOne env ("", description) = (self, []) ∧
      PCATEffectExtractor.processFilesGo env self (("", description) :: rest)
        = PCATEffectExtractor.processFilesGo env self rest) ∧
    (file_path ≠ "" → env.pathExists file_path = false →
      self.processOne env (file_path, description)
        = (self, [Event.log LogLevel.error ("Arquivo não encontrado: " ++ file_path)]) ∧
      (∀ p, Event.readAttempt p ∉ (self.processOne env (file_path, description)).2) ∧
      PCATEffectExtractor.processFilesGo env self ((file_path, description) :: rest)
        = ((PCATEffectExtractor.processFilesGo env self rest).1,
           [Event.log LogLevel.error ("Arquivo não encontrado: " ++ file_path)]
             ++ (PCATEffectExtractor.processFilesGo env self rest).2)) := by
  constructor
  · refine ⟨processOne_empty self env description, ?_⟩
    rw [processFilesGo_cons, processOne_empty self env description]
    simp
  · intro hne hex
    have hone := processOne_missing self env file_path description hne hex
    refine ⟨hone, ?_, ?_⟩
    · intro p; rw [hone]; simp
    · rw [processFilesGo_cons, hone]

/-- Witness for C8: an empty-path entry and a nonexistent concrete path. -/
theorem claim8_witness :
    sampleSelf.processOne envMissing ("", "d") = (sampleSelf, []) ∧
    sampleSelf.processOne envMissing ("p2020.xlsx", "d")
      = (sampleSelf,
         [Event.log LogLevel.error ("Arquivo não encontrado: " ++ "p2020.xlsx")]) ∧
    ∀ p, Event.readAttempt p ∉ (sampleSelf.processOne envMissing ("p2020.xlsx", "d")).2 := by
  obtain ⟨⟨hempty, _⟩, hmiss⟩ :=
    claim8_empty_path_silent_missing_path_logged sampleSelf envMissing "p2020.xlsx" "d" []
  obtain ⟨h1, h2, _⟩ := hmiss (by decide) rfl
  exact ⟨hempty, h1, h2⟩

/-- C9 counterexample: with the output directory absent and a non-empty
2020 bucket, `save_consolidated_file` performs the workbook write yet
creates no directory — contradicting the claim that the save operation
itself creates the output directory when absent. -/
theorem claim9_counterexample :
    envNoDir.dirExists = false ∧
    (sampleSelfBuckets.save_consolidated_file envNoDir).2.all
      (fun ev => !eventIsMkdir ev) = true ∧
    (sampleSelfBuckets.save_consolidated_file envNoDir).2.any eventIsWrite = true := by
  decide

/-- C9 amended: the output directory is created (only when absent, with no
error when present) by `run` through `create_output_directory`, before the
files are processed and the workbook is saved; `save_consolidated_file`
itself never creates the directory. -/
theorem claim9_amended_dir_created_by_run_not_save
    (self : PCATEffectExtractor) (env : Env) :
    (env.dirExists = true → self.create_output_directory env = (self, [])) ∧
    (env.dirExists = false →
      self.create_output_directory env
        = (self, [Event.mkdir self.output_folder,
                  Event.log LogLevel.info ("Diretório criado: " ++ self.output_folder)])) ∧
    (∀ p, Event.mkdir p ∉ (self.save_consolidated_file env).2) ∧
    (self.files_to_process.all (fun fi => fi.1 == "") = false →
      (self.run env).2
        = [Event.log LogLevel.info "Iniciando processamento dos arquivos PCAT"]
            ++ ((self.create_output_directory env).2
            ++ (((self.create_output_directory env).1.process_files env).2
            ++ ((((self.create_output_directory env).1.process_files
                   env).1.save_consolidated_file env).2
            ++ [Event.log LogLevel.info "Processamento concluído com sucesso!"])))) := by
  refine ⟨?_, ?_, save_no_mkdir self env, ?_⟩
  · intro h
    unfold PCATEffectExtractor.create_output_directory
    simp [h]
  · intro h
    unfold PCATEffectExtractor.create_output_directory
    simp [h]
  · intro hfalse
    unfold PCATEffectExtractor.run
    simp [hfalse, PCATEffectExtractor.process_files]

/-- Witness for C9 (amended): concrete environments with the directory
present and absent, and the default extractor's run pipeline. -/
theorem claim9_amended_witness :
    (envAllOk.dirExists = true ∧
      sampleSelf.create_output_directory envAllOk = (sampleSelf, [])) ∧
    (envNoDir.dirExists = false ∧
      sampleSelf.create_output_directory envNoDir
        = (sampleSelf, [Event.mkdir sampleSelf.output_folder,
            Event.log LogLevel.info
              ("Diretório criado: " ++ sampleSelf.output_folder)])) ∧
    (∀ p, Event.mkdir p ∉ (sampleSelf.save_consolidated_file envNoDir).2) := by
  have hOk := claim9_amended_dir_created_by_run_not_save sampleSelf envAllOk
  have hNo := claim9_amended_dir_created_by_run_not_save sampleSelf envNoDir
  exact ⟨⟨rfl, hOk.1 rfl⟩, ⟨rfl, hNo.2.1 rfl⟩, hNo.2.2.1⟩

/-- C10: `extract_data_from_file` never changes the extractor state — the
buckets, configuration, file list and output folder are the same before
and after the call, on success and on failure alike. -/
theorem claim10_extract_preserves_state
    (self : PCATEffectExtractor) (env : Env) (file_info : String × String) :
    (self.extract_data_from_file env file_info).1 = self ∧
    (self.extract_data_from_file env file_info).1.data_by_year = self.data_by_year ∧
    (self.extract_data_from_file env file_info).1.config = self.config ∧
    (self.extract_data_from_file env file_info).1.files_to_process
      = self.files_to_process ∧
    (self.extract_data_from_file env file_info).1.output_folder = self.output_folder := by
  unfold PCATEffectExtractor.extract_data_from_file
  dsimp only
  cases env.readSheet file_info.1 self.config.sheet_name <;> simp
